import Mathlib

set_option maxRecDepth 8000

/-!
Shallow embedding of the access-control engine in
`src/access-control/src/lib.rs` of the `rust-auth-service` repository.

Modelling decisions, each justified by the source:

* Argon2 password hashing is modelled ideally: a parsed PHC hash
  (`PasswordHash`) is represented by the password it was derived from
  together with its salt, and `verify_password` succeeds iff the submitted
  password equals that password.  This is the functional contract of the
  `argon2` crate's `verify_password` (recompute the hash of the submitted
  password under the parameters and salt of the parsed hash and compare),
  ignoring hash collisions.
* Stored password-hash strings are modelled by `HashStr`: either a string
  that parses as a PHC hash (`HashStr.valid`) or one that does not
  (`HashStr.invalid`); `PasswordHash.new` from the source becomes
  `parseHash`.
* `FAKE_PHC_HASH` is, per its doc comment in the source ("The PHC hash is
  derived from an empty password") and its parameter block
  `m=15360,t=2,p=1` with salt `saltsaltsaltsalt`, the hash of the empty
  password with that salt.
* The `HashSet<String>` of capabilities becomes `Finset String`;
  `is_superset` becomes `⊇`, i.e. `required ⊆ capabilities`.
* The `Backend` trait becomes a structure of functions; `async` is erased
  (every await point is a plain call).  `Result<(), Box<dyn Error>>`
  becomes `Except String Unit`.
* A Rust `panic!` (via `expect`) is modelled by `Option`: a result of
  `none` is a panic, `some r` is normal return of `r`.
* `authenticate_creds` additionally returns the list of expensive backend
  and hashing operations it performed, in order (`Op`), so that the
  constant-time-shape property (one lookup, one verification, on every
  path) is statable.
* The random salt drawn in `register` is passed as an explicit argument.
* `String.toLower` stands for Rust's `str::to_lowercase`; the claims under
  study only exercise it on ASCII, where the two agree.
-/

namespace AuthService

/-- A parsed PHC password hash (the `argon2::PasswordHash` of the source),
modelled by the password it was derived from and its salt.  Verification
against it succeeds exactly on that password. -/
structure PasswordHash where
  password : String
  salt : String
deriving DecidableEq, Repr

/-- A password-hash string as stored in the backend: either it parses as a
PHC hash or it does not. -/
inductive HashStr where
  | valid (h : PasswordHash)
  | invalid (s : String)
deriving DecidableEq, Repr

/-- `argon2::PasswordHash::new`: parse a stored hash string. -/
def parseHash : HashStr → Option PasswordHash
  | .valid h => some h
  | .invalid _ => none

/-- `FAKE_PHC_HASH` from the source: a constant PHC hash string, derived
(per its doc comment) from the empty password, with salt
`saltsaltsaltsalt`. -/
def FAKE_PHC_HASH : HashStr := .valid ⟨"", "saltsaltsaltsalt"⟩

/-- `Argon2::verify_password` under the fixed process-wide parameters:
succeeds iff the submitted password is the one the hash was derived
from. -/
def verify_password (password : String) (h : PasswordHash) : Bool :=
  password == h.password

/-- `hash_password_simple` under the fixed parameters with an explicit
salt: produces the (always parseable) PHC hash of the password. -/
def hash_password (password salt : String) : HashStr :=
  .valid ⟨password, salt⟩

/-- The `User` trait object: identifier, stored hash string, capability
set. -/
structure User where
  username : String
  password_hash : HashStr
  capabilities : Finset String
deriving DecidableEq

/-- The `Backend` trait: the abstract credential/session store.  Only the
operations the engine calls are modelled. -/
structure Backend where
  get_user : String → Option User
  get_user_from_session : String → Option User
  register_user : String → HashStr → Except String Unit

/-- The `Error` enum of the engine. -/
inductive Error where
  | authentication
  | authorization
  | usernamePolicy
  | passwordPolicy
deriving DecidableEq, Repr

/-- The typestate phases `Start`, `Authenticated`, `Authorized`. -/
inductive Phase where
  | start
  | authenticated
  | authorized
deriving DecidableEq, Repr

/-- The `AccessControl<S, B, U>` struct: a phase-indexed handle holding
the backend and an optional user. -/
structure AC (p : Phase) where
  backend : Backend
  user : Option User

/-- An expensive operation performed during authentication: a backend
lookup or an Argon2 hash verification. -/
inductive Op where
  | lookup (username : String)
  | verify
deriving DecidableEq, Repr

namespace AccessControl

/-- `AccessControl::new`: construct a `Start`-phase handle with no user. -/
def new (backend : Backend) : AC .start :=
  { backend := backend, user := none }

/-- `AccessControl::authenticate_creds`.  Returns the result (with `none`
modelling a panic of the `expect` on the fake-hash parse) together with
the ordered list of expensive operations performed. -/
def authenticate_creds (ac : AC .start) (username password : String) :
    Option (Except Error (AC .authenticated)) × List Op :=
  let user := ac.backend.get_user username
  match parseHash FAKE_PHC_HASH with
  | none => (none, [.lookup username])
  | some fake_parsed_hash =>
    let parsed_hash :=
      match user with
      | some u => (parseHash u.password_hash).getD fake_parsed_hash
      | none => fake_parsed_hash
    if verify_password password parsed_hash then
      (some (.ok { backend := ac.backend, user := user }),
        [.lookup username, .verify])
    else
      (some (.error .authentication), [.lookup username, .verify])

/-- `AccessControl::authenticate_session`. -/
def authenticate_session (ac : AC .start) (session_id : String) :
    Except Error (AC .authenticated) :=
  match ac.backend.get_user_from_session session_id with
  | none => .error .authentication
  | some user => .ok { backend := ac.backend, user := some user }

/-- `AccessControl::register` with the randomly generated salt passed
explicitly.  Character-level operations (`to_lowercase`, `is_empty`,
`chars().all`, `chars().count()`) are embedded over the string's
character list, which is exactly what the Rust code iterates.  The
backend's `register_user` result is discarded (`unwrap_or(())` in the
source). -/
def register (ac : AC .start) (username password salt : String) :
    Except Error Unit :=
  let username := String.mk (username.data.map Char.toLower)
  if username.data.isEmpty || !(username.data.all Char.isAlphanum) then
    .error .usernamePolicy
  else if password.data.length < 12 || password.data.length > 256 then
    .error .passwordPolicy
  else
    let password_hash := hash_password password salt
    let _ := ac.backend.register_user username password_hash
    .ok ()

/-- `AccessControl::authorize`.  `none` models the panic of
`expect("user is always available in authenticated state")`. -/
def authorize (ac : AC .authenticated) (required_capabilities : Finset String) :
    Option (Except Error (AC .authorized)) :=
  match ac.user with
  | none => none
  | some u =>
    if ¬ required_capabilities ⊆ u.capabilities then
      some (.error .authorization)
    else
      some (.ok { backend := ac.backend, user := ac.user })

/-- `AccessControl::get_user`.  `none` models the panic of
`expect("user is always available in authorized state")`. -/
def get_user (ac : AC .authorized) : Option User :=
  ac.user

end AccessControl

/-- The handles obtainable through the public API, starting from
`AccessControl.new`: exactly the constructors `new`, a successful
`authenticate_creds`, a successful `authenticate_session`, and a
successful `authorize`, each consuming a handle of the phase the source
method is implemented on. -/
inductive Derivable : (p : Phase) → AC p → Prop where
  | new (b : Backend) : Derivable .start (AccessControl.new b)
  | creds (h : AC .start) (username password : String)
      (h' : AC .authenticated) (hd : Derivable .start h)
      (hok : (AccessControl.authenticate_creds h username password).1 =
        some (.ok h')) :
      Derivable .authenticated h'
  | session (h : AC .start) (session_id : String)
      (h' : AC .authenticated) (hd : Derivable .start h)
      (hok : AccessControl.authenticate_session h session_id = .ok h') :
      Derivable .authenticated h'
  | authorize (h : AC .authenticated) (required : Finset String)
      (h' : AC .authorized) (hd : Derivable .authenticated h)
      (hok : AccessControl.authorize h required = some (.ok h')) :
      Derivable .authorized h'

/-- The parsed form of `FAKE_PHC_HASH`. -/
def fake_parsed_hash : PasswordHash := ⟨"", "saltsaltsaltsalt"⟩

/-- The stored PHC hash of the password `password` with salt
`saltsaltsaltsalt` (the fixture used by the constant-time bench of the
repository). -/
def adminHash : HashStr := .valid ⟨"password", "saltsaltsaltsalt"⟩

/-- A demo principal with one capability, mirroring the examples of the
specification. -/
def admin : User := ⟨"admin", adminHash, {"UserRead"}⟩

/-- A demo backend that knows exactly the principal `admin` and a single
session `session1` bound to it; registration succeeds. -/
def demoBackend : Backend where
  get_user := fun name => if name = "admin" then some admin else none
  get_user_from_session := fun sid => if sid = "session1" then some admin else none
  register_user := fun _ _ => .ok ()

/-- A backend with no principals whose registration operation always
fails, as when the identifier is already taken. -/
def takenBackend : Backend where
  get_user := fun _ => none
  get_user_from_session := fun _ => none
  register_user := fun _ _ => .error "username already taken"

/-- A principal whose stored hash string does not parse as a PHC hash. -/
def charlie : User := ⟨"charlie", .invalid "not-a-phc-hash", ∅⟩

/-- A backend that knows exactly the principal `charlie`, whose stored
hash is corrupt. -/
def corruptBackend : Backend where
  get_user := fun name => if name = "charlie" then some charlie else none
  get_user_from_session := fun _ => none
  register_user := fun _ _ => .ok ()

/-- Definitional characterization of `authenticate_creds`: the fake-hash
parse always succeeds (the constant is a valid PHC string), the stored
hash of an existing user is parsed with fallback to the decoy, an absent
user selects the decoy, and exactly one lookup and one verification are
performed on both the success and the failure branch. -/
theorem authenticate_creds_eq (ac : AC .start) (username password : String) :
    AccessControl.authenticate_creds ac username password =
      if verify_password password
          (match ac.backend.get_user username with
           | some u => (parseHash u.password_hash).getD fake_parsed_hash
           | none => fake_parsed_hash) then
        (some (.ok ⟨ac.backend, ac.backend.get_user username⟩),
          [.lookup username, .verify])
      else
        (some (.error .authentication), [.lookup username, .verify]) := rfl

/-- Claim C1: `authenticate_creds` performs exactly one backend lookup and
one hash verification on every call — this half holds universally (first
conjunct).  But the further assertion that a known-identifier/wrong-
password run and an unknown-identifier run "both return
`Error::Authentication`" fails at the empty password: with the demo
backend, the known identifier `admin` with the (wrong) empty password
yields `Error::Authentication`, while the unknown identifier `bob` with
the empty password yields `Ok` — the empty password verifies against the
decoy hash, so the two runs are distinguishable. -/
theorem authenticate_creds_ops_and_empty_password_divergence :
    (∀ (ac : AC .start) (username password : String),
      (AccessControl.authenticate_creds ac username password).2 =
        [.lookup username, .verify])
    ∧ (AccessControl.authenticate_creds (AccessControl.new demoBackend)
        "admin" "").1 = some (.error .authentication)
    ∧ (AccessControl.authenticate_creds (AccessControl.new demoBackend)
        "bob" "").1 = some (.ok ⟨demoBackend, none⟩) := by
  refine ⟨?_, rfl, rfl⟩
  intro ac username password
  rw [authenticate_creds_eq]
  split <;> rfl

/-- Claim C2: the claim that every `Ok` result of `authenticate_creds`
wraps a present principal is violated: on a backend that stores no user at
all, authenticating with the empty password returns `Ok` with
`user = none`, because the empty password verifies against the decoy
hash. -/
theorem authenticate_creds_ok_with_absent_principal :
    (AccessControl.authenticate_creds (AccessControl.new takenBackend)
      "anyone" "").1 = some (.ok ⟨takenBackend, none⟩) := rfl

/-- Claim C3: the decoy hash is claimed never to be a valid credential,
yet for the identifier `mallory`, for which the backend returns no
principal, submitting the empty password does not produce
`Error::Authentication` — it produces a successful authentication. -/
theorem decoy_validates_empty_password_for_unknown_identifier :
    demoBackend.get_user "mallory" = none
    ∧ (AccessControl.authenticate_creds (AccessControl.new demoBackend)
        "mallory" "").1 = some (.ok ⟨demoBackend, none⟩) :=
  ⟨rfl, rfl⟩

/-- Claim C5: the `expect` inside `authorize` is reachable through the
public API: the handle produced by `authenticate_creds` on an unknown
identifier with the empty password is obtainable (it is `Derivable`), and
invoking `authorize` on it panics (modelled by `none`), instead of
returning a typed error. -/
theorem authorize_panics_on_reachable_handle :
    Derivable .authenticated ⟨demoBackend, none⟩
    ∧ AccessControl.authorize ⟨demoBackend, none⟩ ∅ = none :=
  ⟨.creds (AccessControl.new demoBackend) "mallory" ""
      ⟨demoBackend, none⟩ (.new demoBackend) rfl,
    rfl⟩

/-- Claim C4: every `Authorized` handle obtainable through the public API
was produced by a successful `authorize` applied to an obtainable
`Authenticated` handle, and every obtainable `Authenticated` handle was
produced by a successful `authenticate_creds` or `authenticate_session`
applied to an obtainable `Start` handle.  Each `Derivable` step consumes
the handle of the preceding phase (in the source, every transition method
takes `self` by value, and the phase types implement no `Clone`). -/
theorem typestate_sequencing :
    (∀ h' : AC .authorized, Derivable .authorized h' →
      ∃ (h : AC .authenticated) (R : Finset String),
        Derivable .authenticated h
        ∧ AccessControl.authorize h R = some (.ok h'))
    ∧ (∀ h' : AC .authenticated, Derivable .authenticated h' →
      ∃ h : AC .start, Derivable .start h
        ∧ ((∃ username password,
              (AccessControl.authenticate_creds h username password).1 =
                some (.ok h'))
           ∨ (∃ session_id,
              AccessControl.authenticate_session h session_id = .ok h'))) := by
  constructor
  · intro h' hd
    cases hd with
    | authorize h R _ hd hok => exact ⟨h, R, hd, hok⟩
  · intro h' hd
    cases hd with
    | creds h username password _ hd hok =>
      exact ⟨h, hd, .inl ⟨username, password, hok⟩⟩
    | session h session_id _ hd hok =>
      exact ⟨h, hd, .inr ⟨session_id, hok⟩⟩

/-- Witness for claim C4 at a concrete run: the handle obtained by
authenticating `admin` with the correct password and authorizing against
the required set containing exactly `UserRead`. -/
theorem typestate_sequencing_witness :
    ∃ (h : AC .authenticated) (R : Finset String),
      Derivable .authenticated h
      ∧ AccessControl.authorize h R = some (.ok ⟨demoBackend, some admin⟩) :=
  typestate_sequencing.1 ⟨demoBackend, some admin⟩
    (.authorize ⟨demoBackend, some admin⟩ {"UserRead"} ⟨demoBackend, some admin⟩
      (.creds (AccessControl.new demoBackend) "admin" "password"
        ⟨demoBackend, some admin⟩ (.new demoBackend) rfl)
      rfl)

/-- Claim C6: on an `Authenticated` handle holding the principal `u`,
`authorize R` returns the `Authorized` handle iff `R` is a subset of the
capabilities of `u`, returns `Error::Authorization` iff it is not, and
the empty required set always succeeds. -/
theorem authorize_iff_required_subset (h : AC .authenticated) (u : User)
    (R : Finset String) (hu : h.user = some u) :
    (AccessControl.authorize h R = some (.ok ⟨h.backend, some u⟩)
      ↔ R ⊆ u.capabilities)
    ∧ (AccessControl.authorize h R = some (.error .authorization)
      ↔ ¬ R ⊆ u.capabilities)
    ∧ AccessControl.authorize h ∅ = some (.ok ⟨h.backend, some u⟩) := by
  obtain ⟨b, user⟩ := h
  cases hu
  by_cases hR : R ⊆ u.capabilities <;>
    simp [AccessControl.authorize, hR, Finset.empty_subset]

/-- Witness for claim C6: the principal `admin` with capability set
containing exactly `UserRead` is authorized against the required set
containing exactly `UserRead`. -/
theorem authorize_iff_required_subset_witness :
    AccessControl.authorize ⟨demoBackend, some admin⟩ {"UserRead"} =
      some (.ok ⟨demoBackend, some admin⟩) :=
  (authorize_iff_required_subset ⟨demoBackend, some admin⟩ admin
    {"UserRead"} rfl).1.mpr (by decide)

/-- Definitional characterization of `register`: the two policy checks in
order on the lowercased identifier and the character count of the
password, with the backend registration result discarded. -/
theorem register_eq (ac : AC .start) (username password salt : String) :
    AccessControl.register ac username password salt =
      (if (username.data.map Char.toLower).isEmpty
          || !((username.data.map Char.toLower).all Char.isAlphanum) then
        .error .usernamePolicy
      else if password.data.length < 12 || password.data.length > 256 then
        .error .passwordPolicy
      else .ok ()) := rfl

/-- The boolean username check of `register` as a proposition: the
lowercased identifier is empty or contains a character outside the ASCII
alphanumerics. -/
theorem username_check_iff (l : List Char) :
    (l.isEmpty || !(l.all Char.isAlphanum)) = true ↔
      (l = [] ∨ ∃ c ∈ l, c.isAlphanum = false) := by
  simp [List.isEmpty_iff]

/-- The boolean password-length check of `register` as a proposition: the
character count lies outside the interval from 12 to 256. -/
theorem password_check_iff (n : Nat) :
    (decide (n < 12) || decide (n > 256)) = true ↔ (n < 12 ∨ 256 < n) := by
  simp

/-- Definitional characterization of `authorize` on a handle that holds a
principal: the required set is checked against the capabilities of the
principal, and the backend and user fields pass through unchanged. -/
theorem authorize_some_eq (b : Backend) (u : User) (R : Finset String) :
    AccessControl.authorize ⟨b, some u⟩ R =
      if ¬ R ⊆ u.capabilities then some (.error .authorization)
      else some (.ok ⟨b, some u⟩) := rfl

/-- Claim C7: `register` applies the policy in order with the first
failure winning — it returns `Error::UsernamePolicy` iff the lowercased
identifier is empty or has a character outside the ASCII alphanumerics;
otherwise it returns `Error::PasswordPolicy` iff the character count of
the password lies outside the interval from 12 to 256, and it returns
`Ok` when both checks pass. -/
theorem register_policy_order_and_bounds (b : Backend)
    (username password salt : String) :
    (AccessControl.register (AccessControl.new b) username password salt =
        .error .usernamePolicy
      ↔ (username.data.map Char.toLower = []
          ∨ ∃ c ∈ username.data.map Char.toLower, c.isAlphanum = false))
    ∧ ((username.data.map Char.toLower ≠ []
          ∧ ∀ c ∈ username.data.map Char.toLower, c.isAlphanum = true) →
        ((AccessControl.register (AccessControl.new b) username password salt =
            .error .passwordPolicy
          ↔ (password.data.length < 12 ∨ 256 < password.data.length))
         ∧ (12 ≤ password.data.length ∧ password.data.length ≤ 256 →
            AccessControl.register (AccessControl.new b) username password salt =
              .ok ()))) := by
  have hU := username_check_iff (username.data.map Char.toLower)
  have hP := password_check_iff password.data.length
  rw [register_eq]
  split_ifs with h1 h2
  · refine ⟨iff_of_true rfl (hU.mp h1), fun hgood => absurd (hU.mp h1) ?_⟩
    rintro (hnil | ⟨c, hc, hcf⟩)
    · exact hgood.1 hnil
    · rw [hgood.2 c hc] at hcf
      exact Bool.noConfusion hcf
  · refine ⟨iff_of_false (by simp) (fun hr => h1 (hU.mpr hr)), fun _ => ?_⟩
    refine ⟨iff_of_true rfl (hP.mp h2), ?_⟩
    rintro ⟨hlo, hhi⟩
    rcases hP.mp h2 with h | h <;> omega
  · refine ⟨iff_of_false (by simp) (fun hr => h1 (hU.mpr hr)), fun _ => ?_⟩
    exact ⟨iff_of_false (by simp) (fun hr => h2 (hP.mpr hr)), fun _ => rfl⟩

/-- Witness for claim C7 at the boundary inputs of the specification:
passwords of 11, 12, 256 and 257 characters, and an identifier containing
a commercial-at character. -/
theorem register_policy_order_and_bounds_witness :
    AccessControl.register (AccessControl.new demoBackend) "alice"
        (String.mk (List.replicate 11 'a')) "salt" = .error .passwordPolicy
    ∧ AccessControl.register (AccessControl.new demoBackend) "alice"
        (String.mk (List.replicate 12 'a')) "salt" = .ok ()
    ∧ AccessControl.register (AccessControl.new demoBackend) "alice"
        (String.mk (List.replicate 256 'a')) "salt" = .ok ()
    ∧ AccessControl.register (AccessControl.new demoBackend) "alice"
        (String.mk (List.replicate 257 'a')) "salt" = .error .passwordPolicy
    ∧ AccessControl.register (AccessControl.new demoBackend) "al@ice"
        "validpassword" "salt" = .error .usernamePolicy :=
  ⟨((register_policy_order_and_bounds demoBackend "alice"
      (String.mk (List.replicate 11 'a')) "salt").2 (by decide)).1.mpr
      (by decide),
    ((register_policy_order_and_bounds demoBackend "alice"
      (String.mk (List.replicate 12 'a')) "salt").2 (by decide)).2
      (by decide),
    ((register_policy_order_and_bounds demoBackend "alice"
      (String.mk (List.replicate 256 'a')) "salt").2 (by decide)).2
      (by decide),
    ((register_policy_order_and_bounds demoBackend "alice"
      (String.mk (List.replicate 257 'a')) "salt").2 (by decide)).1.mpr
      (by decide),
    (register_policy_order_and_bounds demoBackend "al@ice"
      "validpassword" "salt").1.mpr (by decide)⟩

/-- Claim C8: for every identifier and password that pass the two policy
checks, `register` returns `Ok` on every backend — in particular on a
backend whose registration operation fails because the identifier is
already taken; the backend error is discarded. -/
theorem register_masks_backend_result (username password salt : String)
    (hu : username.data.map Char.toLower ≠ []
        ∧ ∀ c ∈ username.data.map Char.toLower, c.isAlphanum = true)
    (hp : 12 ≤ password.data.length ∧ password.data.length ≤ 256) :
    ∀ b : Backend,
      AccessControl.register (AccessControl.new b) username password salt =
        .ok () := by
  intro b
  have h1 : ¬ ((username.data.map Char.toLower).isEmpty
      || !((username.data.map Char.toLower).all Char.isAlphanum)) = true := by
    rw [username_check_iff]
    rintro (hnil | ⟨c, hc, hcf⟩)
    · exact hu.1 hnil
    · rw [hu.2 c hc] at hcf
      exact Bool.noConfusion hcf
  have h2 : ¬ (decide (password.data.length < 12)
      || decide (password.data.length > 256)) = true := by
    rw [password_check_iff]
    omega
  rw [register_eq, if_neg h1, if_neg h2]

/-- Witness for claim C8: registering on the backend whose registration
operation always fails with `username already taken` still returns `Ok`,
even though the discarded backend call returns an error. -/
theorem register_masks_backend_result_witness :
    AccessControl.register (AccessControl.new takenBackend) "alice"
        "correcthorsebattery" "salt" = .ok ()
    ∧ takenBackend.register_user "alice"
        (hash_password "correcthorsebattery" "salt") =
          .error "username already taken" :=
  ⟨register_masks_backend_result "alice" "correcthorsebattery" "salt"
      ⟨by decide, by decide⟩ ⟨by decide, by decide⟩ takenBackend,
    rfl⟩

/-- Claim C9: when `authorize` succeeds on a handle holding the principal
`u`, the resulting `Authorized` handle carries the same principal and the
same backend, and `get_user` returns exactly that principal; moreover the
result of `get_user` is independent of the backend, i.e. the retrieval
performs no backend call. -/
theorem authorize_get_user_frame (h : AC .authenticated) (u : User)
    (R : Finset String) (h' : AC .authorized) (hu : h.user = some u)
    (hok : AccessControl.authorize h R = some (.ok h')) :
    h'.user = some u ∧ h'.backend = h.backend
    ∧ AccessControl.get_user h' = some u
    ∧ ∀ b₂ : Backend, AccessControl.get_user ⟨b₂, h'.user⟩ = some u := by
  obtain ⟨b, user⟩ := h
  cases hu
  rw [authorize_some_eq] at hok
  by_cases hR : R ⊆ u.capabilities
  · rw [if_neg (not_not_intro hR)] at hok
    obtain rfl : (⟨b, some u⟩ : AC .authorized) = h' :=
      Except.ok.inj (Option.some.inj hok)
    exact ⟨rfl, rfl, rfl, fun b₂ => rfl⟩
  · rw [if_pos hR] at hok
    exact Except.noConfusion (Option.some.inj hok)

/-- Witness for claim C9 on the demo run: retrieving the principal after
authorizing `admin` returns the very principal produced by the
authentication step. -/
theorem authorize_get_user_frame_witness :
    AccessControl.get_user ⟨demoBackend, some admin⟩ = some admin :=
  (authorize_get_user_frame ⟨demoBackend, some admin⟩ admin ∅
      ⟨demoBackend, some admin⟩ rfl rfl).2.2.1

/-- Claim C10: if the backend returns a principal whose stored hash
string fails to parse as a PHC hash, `authenticate_creds` verifies the
submitted password against the parsed decoy hash instead; the call
returns `Ok` wrapping that real principal iff the password verifies
against the decoy, and otherwise returns `Error::Authentication` — in
particular the genuine password of the principal is rejected whenever it
does not match the decoy. -/
theorem unparseable_stored_hash_uses_decoy (b : Backend)
    (username password : String) (u : User)
    (hu : b.get_user username = some u)
    (hbad : parseHash u.password_hash = none) :
    (AccessControl.authenticate_creds (AccessControl.new b)
        username password).1 =
      if verify_password password fake_parsed_hash then
        some (.ok ⟨b, some u⟩)
      else some (.error .authentication) := by
  rw [authenticate_creds_eq]
  dsimp only [AccessControl.new]
  rw [hu]
  simp only [hbad, Option.getD_none]
  by_cases hv : verify_password password fake_parsed_hash <;> simp [hv]

/-- Witness for claim C10 on the principal `charlie`, whose stored hash
is corrupt: the genuine password `genuinepw` is rejected, while the empty
password — the one the decoy hash was derived from — authenticates and
returns the real principal. -/
theorem unparseable_stored_hash_uses_decoy_witness :
    (AccessControl.authenticate_creds (AccessControl.new corruptBackend)
        "charlie" "genuinepw").1 = some (.error .authentication)
    ∧ (AccessControl.authenticate_creds (AccessControl.new corruptBackend)
        "charlie" "").1 = some (.ok ⟨corruptBackend, some charlie⟩) := by
  constructor
  · rw [unparseable_stored_hash_uses_decoy corruptBackend "charlie"
      "genuinepw" charlie rfl rfl]
    rfl
  · rw [unparseable_stored_hash_uses_decoy corruptBackend "charlie" ""
      charlie rfl rfl]
    rfl

end AuthService
